import Mathlib

/-!
Verification development for the `armi.runLog` module: a shallow embedding of
the rank-aware logging facility (severity table, message deduplication,
verbosity control, error-stream redirection, and the coordinator-side
concatenation of per-rank log files), with theorems settling the behavioural
claims about it.

Machine integers are modelled as `Int`/`Nat` (Python integers are unbounded),
Python dictionaries as insertion-ordered association lists, the filesystem as
an association list from path to contents, and raised exceptions as `Option`
or explicit error components.
-/

namespace RunLog

/-! ## Severity table (`_logLevels` in the source, with MPI rank 0 so the
rank suffix of each label is empty) -/

/-- The ordered severity table: name, numeric rank, display label.
Mirrors `_logLevels` in `runLog.py` (lines 58-69). -/
def logLevels : List (String × Int × String) :=
  [("debug", (0, "[dbug] ")),
   ("extra", (10, "[xtra] ")),
   ("info", (20, "[info] ")),
   ("important", (25, "[impt] ")),
   ("prompt", (27, "[prmt] ")),
   ("warning", (30, "[warn] ")),
   ("error", (50, "[err ] ")),
   ("header", (100, ""))]

/-- `getLogVerbosityLevels()`: the list of severity names. -/
def getLogVerbosityLevels : List String := logLevels.map (fun p => p.1)

/-- `getLogVerbosityRank(level)`: the numeric rank of a severity name;
raises `KeyError` (modelled as `.error`) for an unknown name. -/
def getLogVerbosityRank (level : String) : Except String Int :=
  match logLevels.lookup level with
  | some p => .ok p.1
  | none => .error "not a valid verbosity level"

/-- The loop body of `_checkLogVerbsityRank`: walk the severity table and
return the rank as soon as it matches the expected rank of some level. -/
def checkLogVerbsityRankAux (levels : List (String × Int × String)) (rank : Int) :
    Except String Int :=
  match levels with
  | [] => .error "Invalid verbosity rank"
  | (_, expectedRank, _) :: rest =>
    if rank = expectedRank then .ok rank else checkLogVerbsityRankAux rest rank

/-- `_checkLogVerbsityRank(rank)` (source lines 93-103, name kept with the
typo of the source): accept an integer rank only if it equals the rank of
one of the defined levels, else raise `KeyError`. -/
def checkLogVerbsityRank (rank : Int) : Except String Int :=
  checkLogVerbsityRankAux logLevels rank

/-! ## Whitespace pad for multi-line messages (`_whitespace`, line 70) -/

/-- A string of `n` spaces. -/
def spaces (n : Nat) : String := ⟨List.replicate n ' '⟩

/-- Lexicographic strict comparison of strings by code point, the order
Python uses on strings. -/
def strLtChars : List Char → List Char → Bool
  | [], [] => false
  | [], _ :: _ => true
  | _ :: _, [] => false
  | a :: as, b :: bs =>
    if a.toNat < b.toNat then true
    else if b.toNat < a.toNat then false
    else strLtChars as bs

/-- Python `max` over a list of strings: keep the current value unless the
next one is strictly greater (lexicographic order). -/
def strMax (a b : String) : String := if strLtChars a.data b.data then b else a

/-- `max([l[1] for l in _logLevels.values()])`: the lexicographically
greatest severity label. -/
def maxLabel : String := (logLevels.map (fun p => p.2.2)).foldl strMax ""

/-- `_whitespace = " " * len(max(...))` (line 70). -/
def whitespacePad : String := spaces maxLabel.length

/-! ## String helpers mirroring the Python string methods used -/

/-- The whitespace characters stripped by Python `str.rstrip()`. -/
def pyWhitespace (c : Char) : Bool :=
  c == ' ' || c == '\t' || c == '\n' || c == '\x0d' || c == '\x0b' || c == '\x0c'

/-- Python `str.rstrip()`: drop trailing whitespace. -/
def rstrip (s : String) : String :=
  ⟨(s.data.reverse.dropWhile pyWhitespace).reverse⟩

/-- Python `str.replace(nl, nl + pad)` on the character list: every newline
is followed by the pad. -/
def expandNewlines (pad : List Char) : List Char → List Char
  | [] => []
  | c :: cs =>
    if c = '\n' then c :: (pad ++ expandNewlines pad cs)
    else c :: expandNewlines pad cs

/-- `Log._cleanMsg` (lines 181-183): `str(msg).rstrip().replace("\n", "\n" + _whitespace)`. -/
def cleanMsg (msg : String) : String :=
  ⟨expandNewlines whitespacePad.data (rstrip msg).data⟩

/-! ## The `Log` object state -/

/-- The mutable state of a `Log`/`PrintLog` object, together with the
process-global `sys.stderr` target (there is one logger per process, so the
global is carried alongside the object fields). Streams are modelled by
numeric identities, since the source compares stream objects by identity. -/
structure LogState where
  mpiRank : Nat
  mpiSize : Nat
  verbosity : Int
  name : String
  singleMessageCounts : List (String × Nat)
  singleWarningMessageCounts : List (String × Nat)
  sysStderr : Nat
  errStream : Nat
  initialErr : Nat
  deriving Repr, DecidableEq

/-- `Log.setErrStream` (lines 246-248): `sys.stderr = self._errStream = stderr`. -/
def setErrStream (st : LogState) (stderr : Nat) : LogState :=
  { st with sysStderr := stderr, errStream := stderr }

/-- `Log.__init__` followed by the module-level `logFactory()`: verbosity
starts at `logging.INFO = 20`, both dedup dictionaries empty, the error
stream attached to the initial stderr target via `setErrStream`. -/
def mkLog (mpiRank mpiSize : Nat) (ambientStderr : Nat) : LogState :=
  setErrStream
    { mpiRank := mpiRank
      mpiSize := mpiSize
      verbosity := 20
      name := "log"
      singleMessageCounts := []
      singleWarningMessageCounts := []
      sysStderr := ambientStderr
      errStream := ambientStderr
      initialErr := ambientStderr } ambientStderr

/-- `Log._restoreErrStream` (lines 253-256): put back the remembered initial
target only if the global target is still the one this object installed. -/
def restoreErrStream (st : LogState) : LogState :=
  if st.sysStderr = st.errStream then { st with sysStderr := st.initialErr } else st

/-! ## Deduplication counters (`defaultdict(lambda: 0)` with `+= 1`) -/

/-- Read a counter, defaulting to 0 (the `defaultdict` default). -/
def countOf (m : List (String × Nat)) (k : String) : Nat :=
  (m.lookup k).getD 0

/-- `m[k] += 1` on a `defaultdict(lambda: 0)`: increment in place, inserting
the key at the end on first use (Python dictionaries preserve insertion
order). -/
def bumpCount (m : List (String × Nat)) (k : String) : List (String × Nat) :=
  match m with
  | [] => [(k, 1)]
  | (k0, c) :: rest =>
    if k0 = k then (k0, c + 1) :: rest else (k0, c) :: bumpCount rest k

/-- `Log._msgHasAlreadyBeenEmitted(label, msgType)` (lines 185-199): bump the
counter of the label in the warning-class dictionary when `msgType` is
`"warning"` or `"critical"`, else in the other dictionary; report whether the
count is now above 1. -/
def msgHasAlreadyBeenEmitted (st : LogState) (label : String) (msgType : String) :
    Bool × LogState :=
  if msgType = "warning" ∨ msgType = "critical" then
    let m := bumpCount st.singleWarningMessageCounts label
    (decide (countOf m label > 1), { st with singleWarningMessageCounts := m })
  else
    let m := bumpCount st.singleMessageCounts label
    (decide (countOf m label > 1), { st with singleMessageCounts := m })

/-- `Log.clearSingleWarnings` (lines 201-203): `self._singleMessageCounts.clear()`. -/
def clearSingleWarnings (st : LogState) : LogState :=
  { st with singleMessageCounts := [] }

/-! ## Message emission -/

/-- `Log.standardLogMsg(msgType, msg, single, label)` (lines 157-179).
Returns `none` for the `KeyError` raised by `_logLevels[msgType]` on an
unknown severity name; otherwise the list of strings handed to the
underlying sink (`logger.log` with format `levelname + message`) and the
updated state. -/
def standardLogMsg (st : LogState) (msgType msg : String) (single : Bool)
    (labelOpt : Option String) : Option (List String × LogState) :=
  let label := labelOpt.getD msg
  match logLevels.lookup msgType with
  | none => none
  | some (msgVerbosity, msgLabel) =>
    if msgVerbosity < st.verbosity then some ([], st)
    else if single then
      let r := msgHasAlreadyBeenEmitted st label msgType
      if r.1 then some ([], r.2)
      else some ([msgLabel ++ cleanMsg msg], r.2)
    else some ([msgLabel ++ cleanMsg msg], st)

/-- Total wrapper for the internal emissions the module makes with the fixed,
always-valid severity names (`info`, `warning`, `error`); the `KeyError`
branch is unreachable for these. -/
def emitVia (st : LogState) (msgType msg : String) : List String × LogState :=
  (standardLogMsg st msgType msg false none).getD ([], st)

/-- `Log.setVerbosity(levelInput)` (lines 217-240): resolve the rank from a
name or check an integer rank, then assign. The right-hand side is evaluated
before the assignment, so a raised `KeyError` (second component `some`)
leaves the state as it was. -/
def setVerbosity (st : LogState) (levelInput : String ⊕ Int) :
    LogState × Option String :=
  match (match levelInput with
         | .inl s => getLogVerbosityRank s
         | .inr n => checkLogVerbsityRank n) with
  | .ok r => ({ st with verbosity := r }, none)
  | .error e => (st, some e)

/-- `Log.getVerbosity` (lines 242-244). -/
def getVerbosity (st : LogState) : Int := st.verbosity

/-! ## Python format helpers used by `warningReport` and the file names -/

/-- `"{:>Nd}"`-style right alignment in a field of width `w`. -/
def padLeft (w : Nat) (s : String) : String :=
  ⟨List.replicate (w - s.length) ' '⟩ ++ s

/-- `"{:<Ns}"`-style left alignment in a field of width `w`. -/
def padRight (w : Nat) (s : String) : String :=
  s ++ ⟨List.replicate (w - s.length) ' '⟩

/-- `"{:^Ns}"`-style centering: the extra space goes to the right. -/
def center (w : Nat) (s : String) : String :=
  let p := w - s.length
  ⟨List.replicate (p / 2) ' '⟩ ++ s ++ ⟨List.replicate (p - p / 2) ' '⟩

/-- `"{:0Nd}"`-style zero padding of a natural number. -/
def zeroPadFmt (w : Nat) (n : Nat) : String :=
  ⟨List.replicate (w - (toString n).length) '0'⟩ ++ toString n

/-- A run of `n` dashes (`"-" * n`). -/
def dashes (n : Nat) : String := ⟨List.replicate n '-'⟩

/-! ## The warning report (`Log.warningReport`, lines 205-215) -/

/-- One line of the final warning count table:
`"  {0:10d}   {1:<25s}".format(count, str(label))` for an entry
`(label, count)`. -/
def fmtWarningLine (e : String × Nat) : String :=
  "  " ++ padLeft 10 (toString e.2) ++ "   " ++ padRight 25 e.1

/-- The column header line `"  {0:^10s}   {1:^25s}".format("COUNT", "LABEL")`. -/
def warningHeaderLine : String :=
  "  " ++ center 10 "COUNT" ++ "   " ++ center 25 "LABEL"

/-- The comparison used by `sorted(..., key=operator.itemgetter(1))`:
order by the count component. -/
def countLE (a b : String × Nat) : Bool := decide (a.2 ≤ b.2)

/-- Python `sorted` by count: a stable sort ascending by the count component
(Python `sorted` is specified to be stable, so the stable `mergeSort` is
extensionally the same function). -/
def sortedWarnings (m : List (String × Nat)) : List (String × Nat) :=
  m.mergeSort countLE

/-- `Log.warningReport` (lines 205-215): emit a banner, a column header, one
line per warning-class entry sorted ascending by count, and a footer, all via
the module-level `info` (so through `standardLogMsg` with `single=False`). -/
def warningReportRun (st : LogState) : List String × LogState :=
  let r1 := emitVia st "info" "----- Final Warning Count --------"
  let r2 := emitVia r1.2 "info" warningHeaderLine
  let rL := (sortedWarnings r2.2.singleWarningMessageCounts).foldl
      (fun acc e =>
        let r := emitVia acc.2 "info" (fmtWarningLine e)
        (acc.1 ++ r.1, r.2))
      (([] : List String), r2.2)
  let r3 := emitVia rL.2 "info" "------------------------------------"
  (r1.1 ++ r2.1 ++ rL.1 ++ r3.1, r3.2)

/-! ## The `PrintLog` file lifecycle -/

/-- `os.path.join` for a relative second component. -/
def joinPath (a b : String) : String := a ++ "/" ++ b

/-- `_stdoutName.format(name, rank)` with template `"{0}.{1:04d}.stdout"`
(line 50). -/
def stdoutNameOf (name : String) (rank : Nat) : String :=
  name ++ "." ++ zeroPadFmt 4 rank ++ ".stdout"

/-- `_stderrName.format(name, rank)` with template `"{0}.{1:04d}.stderr"`
(line 49). -/
def stderrNameOf (name : String) (rank : Nat) : String :=
  name ++ "." ++ zeroPadFmt 4 rank ++ ".stderr"

/-- The stdout log file path a worker of the given rank passes to
`logging.basicConfig(filename=...)` in `startLog` (lines 273-279):
`os.path.join(self.name, _stdoutName.format(self.name, rank))` with
`self.name = os.path.join("logs", runName)`. -/
def workerStdoutPath (runName : String) (rank : Nat) : String :=
  joinPath (joinPath "logs" runName) (stdoutNameOf (joinPath "logs" runName) rank)

/-- The stderr file path a worker of the given rank opens in `startLog`
(line 288): `_stderrName.format(self.name, rank)`. -/
def workerStderrPath (runName : String) (rank : Nat) : String :=
  stderrNameOf (joinPath "logs" runName) rank

/-- The stdout file path the coordinator reads and deletes for a rank in
`concatenateLogs` (line 326): `os.path.join("logs", _stdoutName.format(self.name, rank))`. -/
def coordStdoutPath (runName : String) (rank : Nat) : String :=
  joinPath "logs" (stdoutNameOf (joinPath "logs" runName) rank)

/-- The stderr file path the coordinator reads and deletes for a rank in
`concatenateLogs` (line 343): `os.path.join("logs", _stderrName.format(self.name, rank))`. -/
def coordStderrPath (runName : String) (rank : Nat) : String :=
  joinPath "logs" (stderrNameOf (joinPath "logs" runName) rank)

/-- `PrintLog.startLog(name)` (lines 262-289), returning the new state and
the list of file paths this process opens for writing: set
`self.name = os.path.join("logs", name)`; a worker lowers its verbosity
floor to `logging.WARNING = 30` and opens its stdout log file; with group
size 1 the barrier and the stderr redirection are skipped; otherwise, after
the barrier, a worker opens its stderr file and installs it as the error
stream. `newErrStream` is the identity of that freshly opened stream. -/
def startLogRun (st : LogState) (runName : String) (newErrStream : Nat) :
    LogState × List String :=
  let nm := joinPath "logs" runName
  let st1 := { st with name := nm }
  let r2 :=
    if st1.mpiRank > 0 then
      ({ st1 with verbosity := 30 }, [joinPath nm (stdoutNameOf nm st1.mpiRank)])
    else (st1, ([] : List String))
  if r2.1.mpiSize = 1 then r2
  else
    if r2.1.mpiRank > 0 then
      (setErrStream r2.1 newErrStream, r2.2 ++ [stderrNameOf nm r2.1.mpiRank])
    else r2

/-! ## Filesystem model and the shutdown concatenation -/

/-- The filesystem restricted to what this module touches: a map from path
to contents (presence of the key is existence of the file). -/
abbrev FS := List (String × String)

/-- `os.path.exists`. -/
def fsExists (fs : FS) (p : String) : Bool := (fs.lookup p).isSome

/-- `open(p).read()`: `none` is the `IOError` raised on a missing file. -/
def fsRead (fs : FS) (p : String) : Option String := fs.lookup p

/-- `os.remove` (always succeeding; a failing removal is only downgraded to
a warning by the source and does not occur in this model). -/
def fsRemove (fs : FS) (p : String) : FS := fs.filter (fun e => e.1 != p)

/-- The banner printed before the stdout contents of a rank (lines 332-334):
`"\n{0} RANK {1:03d} STDOUT {2}\n".format("-" * 10, rank, "-" * 60)`. -/
def rankBannerOut (rank : Nat) : String :=
  "\n" ++ dashes 10 ++ " RANK " ++ zeroPadFmt 3 rank ++ " STDOUT " ++ dashes 60 ++ "\n"

/-- The banner printed before the stderr contents of a rank (lines 349-351). -/
def rankBannerErr (rank : Nat) : String :=
  "\n" ++ dashes 10 ++ " RANK " ++ zeroPadFmt 3 rank ++ " STDERR " ++ dashes 60 ++ "\n"

/-- The outcome of `concatenateLogs`/`close`: lines emitted through the log,
strings printed to the coordinator stdout and stderr channels, the final
log state and filesystem, and whether an `IOError` aborted the loop. -/
structure ConcatResult where
  logOut : List String
  stdoutPrints : List String
  stderrPrints : List String
  log : LogState
  fs : FS
  ioAborted : Bool
  deriving Repr, DecidableEq

/-- The body of the `for rank in range(1, self._mpiSize)` loop of
`concatenateLogs` (lines 324-357), faithful to the source: the stderr block
is guarded by a second existence check of the STDOUT path (line 344), and
reading a missing stderr file inside that block raises `IOError`, aborting
the loop. -/
def concatStep (name : String) (acc : ConcatResult) (rank : Nat) : ConcatResult :=
  if acc.ioAborted then acc
  else
    let stdoutName := joinPath "logs" (stdoutNameOf name rank)
    let acc1 :=
      if fsExists acc.fs stdoutName then
        let data := (fsRead acc.fs stdoutName).getD ""
        let prints := if data ≠ "" then [rankBannerOut rank, data] else []
        { acc with
            stdoutPrints := acc.stdoutPrints ++ prints
            fs := fsRemove acc.fs stdoutName }
      else acc
    if fsExists acc1.fs stdoutName then
      let stderrName := joinPath "logs" (stderrNameOf name rank)
      match fsRead acc1.fs stderrName with
      | none => { acc1 with ioAborted := true }
      | some data =>
        let prints := if data ≠ "" then [rankBannerErr rank, data] else []
        { acc1 with
            stderrPrints := acc1.stderrPrints ++ prints
            fs := fsRemove acc1.fs stderrName }
    else acc1

/-- `PrintLog.concatenateLogs` (lines 317-357): emit the announcement through
`info`, then run the per-rank loop for ranks `1 .. mpiSize - 1`. -/
def concatenateLogs (st : LogState) (fs : FS) : ConcatResult :=
  let r0 := emitVia st "info"
      ("Concatenating " ++ toString st.mpiSize ++ " standard streams")
  (List.range' 1 (st.mpiSize - 1)).foldl (concatStep r0.2.name)
    { logOut := r0.1
      stdoutPrints := []
      stderrPrints := []
      log := r0.2
      fs := fs
      ioAborted := false }

/-- `PrintLog.close` (lines 304-315): the coordinator of a group larger
than 1 concatenates (an `IOError` is caught and reported through `warning`
and `error`); a worker flushes and closes its stream (no observable effect
on this state); every process then restores the error stream. -/
def closeRun (st : LogState) (fs : FS) : ConcatResult :=
  if st.mpiRank = 0 ∧ st.mpiSize > 1 then
    let r := concatenateLogs st fs
    let r1 :=
      if r.ioAborted then
        let w := emitVia r.log "warning" "Failed to concatenate logs due to IOError."
        let e := emitVia w.2 "error" "IOError"
        { r with logOut := r.logOut ++ w.1 ++ e.1, log := e.2 }
      else r
    { r1 with log := restoreErrStream r1.log }
  else
    { logOut := []
      stdoutPrints := []
      stderrPrints := []
      log := restoreErrStream st
      fs := fs
      ioAborted := false }

end RunLog

namespace RunLog

/-! ## Sanity lemmas about the counters -/

theorem countOf_nil (k : String) : countOf [] k = 0 := rfl

theorem countOf_cons (k0 : String) (c : Nat) (m : List (String × Nat)) (k : String) :
    countOf ((k0, c) :: m) k = if k = k0 then c else countOf m k := by
  simp only [countOf, List.lookup]
  by_cases h : k = k0
  · simp [h]
  · simp [beq_eq_false_iff_ne.mpr h, h]

theorem countOf_bumpCount_self (m : List (String × Nat)) (k : String) :
    countOf (bumpCount m k) k = countOf m k + 1 := by
  induction m with
  | nil => simp [bumpCount, countOf_cons, countOf_nil]
  | cons hd tl ih =>
    obtain ⟨k0, c⟩ := hd
    by_cases h : k0 = k
    · subst h
      simp [bumpCount, countOf_cons]
    · simp [bumpCount, if_neg h, countOf_cons, ih, Ne.symm h]

theorem countOf_bumpCount_ne (m : List (String × Nat)) (k k2 : String)
    (h : k2 ≠ k) : countOf (bumpCount m k) k2 = countOf m k2 := by
  induction m with
  | nil => simp [bumpCount, countOf_cons, countOf_nil, h]
  | cons hd tl ih =>
    obtain ⟨k0, c⟩ := hd
    by_cases h0 : k0 = k
    · subst h0
      simp [bumpCount, countOf_cons, h]
    · simp [bumpCount, if_neg h0, countOf_cons, ih]

/-! ## Helper lemmas about emission -/

/-- The class dictionary `_msgHasAlreadyBeenEmitted` bumps for a given
severity name: the warning dictionary for `warning`/`critical`, the other
dictionary otherwise. -/
def classCountsOf (st : LogState) (msgType : String) : List (String × Nat) :=
  if msgType = "warning" ∨ msgType = "critical" then st.singleWarningMessageCounts
  else st.singleMessageCounts

/-- The dictionary of the class `_msgHasAlreadyBeenEmitted` does not touch
for a given severity name. -/
def otherClassCountsOf (st : LogState) (msgType : String) : List (String × Nat) :=
  if msgType = "warning" ∨ msgType = "critical" then st.singleMessageCounts
  else st.singleWarningMessageCounts

theorem msgHasAlreadyBeenEmitted_false (st : LogState) (label msgType : String)
    (h : countOf (classCountsOf st msgType) label = 0) :
    (msgHasAlreadyBeenEmitted st label msgType).1 = false := by
  by_cases hc : msgType = "warning" ∨ msgType = "critical" <;>
    simp_all [msgHasAlreadyBeenEmitted, classCountsOf, hc,
      countOf_bumpCount_self]

theorem msgHasAlreadyBeenEmitted_true (st : LogState) (label msgType : String)
    (h : 1 ≤ countOf (classCountsOf st msgType) label) :
    (msgHasAlreadyBeenEmitted st label msgType).1 = true := by
  by_cases hc : msgType = "warning" ∨ msgType = "critical" <;>
    simp_all [msgHasAlreadyBeenEmitted, classCountsOf, hc,
      countOf_bumpCount_self] <;> omega

theorem lookup_warning : logLevels.lookup "warning" = some (30, "[warn] ") := by
  decide

theorem lookup_info : logLevels.lookup "info" = some (20, "[info] ") := by
  decide

/-- A visible single warning on a fresh label: emitted, counter moved to 1. -/
theorem standardLogMsg_warning_single_emit (st : LogState) (m l : String)
    (hv : st.verbosity ≤ 30) (h0 : countOf st.singleWarningMessageCounts l = 0) :
    standardLogMsg st "warning" m true (some l) =
      some (["[warn] " ++ cleanMsg m],
        { st with singleWarningMessageCounts :=
            bumpCount st.singleWarningMessageCounts l }) := by
  have hlt : ¬ (30 : Int) < st.verbosity := by omega
  simp [standardLogMsg, lookup_warning, hlt, msgHasAlreadyBeenEmitted,
    countOf_bumpCount_self, h0]

/-- A visible single warning on a label already seen: suppressed, counter
still bumped. -/
theorem standardLogMsg_warning_single_suppress (st : LogState) (m l : String)
    (hv : st.verbosity ≤ 30) (h1 : 1 ≤ countOf st.singleWarningMessageCounts l) :
    standardLogMsg st "warning" m true (some l) =
      some ([],
        { st with singleWarningMessageCounts :=
            bumpCount st.singleWarningMessageCounts l }) := by
  have hlt : ¬ (30 : Int) < st.verbosity := by omega
  have hgt : countOf (bumpCount st.singleWarningMessageCounts l) l > 1 := by
    rw [countOf_bumpCount_self]; omega
  simp [standardLogMsg, lookup_warning, hlt, msgHasAlreadyBeenEmitted, hgt]

/-- An `info` emission below the threshold does nothing. -/
theorem emitVia_info_silent (st : LogState) (m : String) (h : 20 < st.verbosity) :
    emitVia st "info" m = ([], st) := by
  simp [emitVia, standardLogMsg, lookup_info, h]

/-- An `info` emission at or above the threshold emits one prefixed line and
leaves the state unchanged (it is not a single-print call). -/
theorem emitVia_info_emit (st : LogState) (m : String) (h : st.verbosity ≤ 20) :
    emitVia st "info" m = (["[info] " ++ cleanMsg m], st) := by
  have hlt : ¬ (20 : Int) < st.verbosity := by omega
  simp [emitVia, standardLogMsg, lookup_info, hlt]

/-! ## Lemmas about the warning-count sort -/

theorem countLE_trans (a b c : String × Nat) (hab : countLE a b) (hbc : countLE b c) :
    countLE a c := by
  simp only [countLE, decide_eq_true_eq] at *
  omega

theorem countLE_total (a b : String × Nat) : countLE a b || countLE b a := by
  simp only [countLE]
  rcases Nat.le_total a.2 b.2 with h | h <;> simp [h]

theorem sortedWarnings_pairwise (m : List (String × Nat)) :
    List.Pairwise (fun a b : String × Nat => a.2 ≤ b.2) (sortedWarnings m) := by
  have h := List.sorted_mergeSort countLE_trans countLE_total m
  exact h.imp (fun hab => by simpa [countLE] using hab)

theorem sortedWarnings_perm (m : List (String × Nat)) :
    (sortedWarnings m).Perm m :=
  List.mergeSort_perm m countLE

/-- Stability of the sort: for each count value, the entries carrying that
count appear in the sorted list exactly in their original order. -/
theorem sortedWarnings_filter (m : List (String × Nat)) (c : Nat) :
    (sortedWarnings m).filter (fun e => e.2 == c)
      = m.filter (fun e => e.2 == c) := by
  set p : String × Nat → Bool := fun e => e.2 == c with hp
  have hpair : (m.filter p).Pairwise (fun a b => countLE a b) := by
    apply List.pairwise_of_forall_mem_list
    intro a ha b hb
    have ha2 : p a := List.of_mem_filter ha
    have hb2 : p b := List.of_mem_filter hb
    simp only [hp, beq_iff_eq] at ha2 hb2
    simp [countLE, ha2, hb2]
  have hsub : List.Sublist (m.filter p) (sortedWarnings m) :=
    List.sublist_mergeSort countLE_trans countLE_total hpair (List.filter_sublist m)
  have hsub2 : List.Sublist ((m.filter p).filter p) ((sortedWarnings m).filter p) :=
    hsub.filter p
  rw [List.filter_filter] at hsub2
  simp only [Bool.and_self] at hsub2
  have hlen : ((sortedWarnings m).filter p).length = (m.filter p).length :=
    ((sortedWarnings_perm m).filter p).length_eq
  exact (hsub2.eq_of_length hlen.symm).symm

/-- The per-entry loop of `warningReport`, at a threshold admitting `info`
messages, emits one line per entry and leaves the state unchanged. -/
theorem warningReport_foldl (l : List (String × Nat)) (out : List String)
    (st : LogState) (h : st.verbosity ≤ 20) :
    l.foldl
      (fun acc e =>
        let r := emitVia acc.2 "info" (fmtWarningLine e)
        (acc.1 ++ r.1, r.2))
      (out, st)
    = (out ++ l.map (fun e => "[info] " ++ cleanMsg (fmtWarningLine e)), st) := by
  induction l generalizing out with
  | nil => simp
  | cons hd tl ih =>
    simp only [List.foldl_cons, emitVia_info_emit st _ h, List.map_cons]
    rw [ih]
    simp

/-- The per-entry loop of `warningReport`, at a threshold suppressing `info`
messages, emits nothing and leaves the state unchanged. -/
theorem warningReport_foldl_silent (l : List (String × Nat)) (out : List String)
    (st : LogState) (h : 20 < st.verbosity) :
    l.foldl
      (fun acc e =>
        let r := emitVia acc.2 "info" (fmtWarningLine e)
        (acc.1 ++ r.1, r.2))
      (out, st)
    = (out, st) := by
  induction l generalizing out with
  | nil => simp
  | cons hd tl ih =>
    simp only [List.foldl_cons, emitVia_info_silent st _ h]
    rw [List.append_nil]
    exact ih out

/-- The full output of `warningReport` when the threshold admits `info`
messages: banner, column header, one line per warning-class entry in
count-sorted order, footer; the state is unchanged. -/
theorem warningReportRun_eq (st : LogState) (h : st.verbosity ≤ 20) :
    warningReportRun st =
      (("[info] " ++ cleanMsg "----- Final Warning Count --------")
        :: ("[info] " ++ cleanMsg warningHeaderLine)
        :: ((sortedWarnings st.singleWarningMessageCounts).map
              (fun e => "[info] " ++ cleanMsg (fmtWarningLine e))
            ++ ["[info] " ++ cleanMsg "------------------------------------"]),
       st) := by
  simp only [warningReportRun, emitVia_info_emit _ _ h]
  rw [warningReport_foldl _ _ _ h]
  simp [emitVia_info_emit _ _ h]

/-- When the threshold is above the `info` rank, `warningReport` emits
nothing at all. -/
theorem warningReportRun_silent (st : LogState) (h : 20 < st.verbosity) :
    warningReportRun st = ([], st) := by
  simp only [warningReportRun, emitVia_info_silent _ _ h]
  rw [warningReport_foldl_silent _ _ _ h]
  simp [emitVia_info_silent _ _ h]

/-! ## The claims -/

/-- The coordinator state of the C1 scenario: rank 0 of a 3-process group,
after `startLog("armiRun")` set the name. -/
def c1Log : LogState := { mkLog 0 3 0 with name := joinPath "logs" "armiRun" }

/-- The C1 scenario filesystem: rank 1 has a stdout file with contents
"hello" plus newline and an empty stderr file, located at the very paths the
coordinator computes; rank 2 has no files. -/
def c1FS : FS :=
  [(coordStdoutPath "armiRun" 1, "hello\n"),
   (coordStderrPath "armiRun" 1, "")]

/-- C1: evaluation of `close()` in the 3-process scenario. The stdout file
of rank 1 is read, announced with a rank banner, printed and deleted, and
nothing is printed for the empty stderr file or for rank 2 — but the stderr
file of rank 1 is NOT deleted: the stderr block of `concatenateLogs` is
guarded by a second existence check of the STDOUT path (line 344 of the
source), which is false right after that file was removed, so the claim
that both files of rank 1 are removed fails on the code. -/
theorem close_leaves_rank_stderr_file :
    (closeRun c1Log c1FS).stdoutPrints = [rankBannerOut 1, "hello\n"]
  ∧ (closeRun c1Log c1FS).stderrPrints = []
  ∧ (closeRun c1Log c1FS).logOut = ["[info] Concatenating 3 standard streams"]
  ∧ fsExists (closeRun c1Log c1FS).fs (coordStdoutPath "armiRun" 1) = false
  ∧ fsExists (closeRun c1Log c1FS).fs (coordStderrPath "armiRun" 1) = true
  ∧ (closeRun c1Log c1FS).ioAborted = false := by
  decide

/-- C2: evaluation showing that `clearSingleWarnings` does not clear the
warning-class counters. A single-print warning with label "W" is emitted
once; after `clearSingleWarnings` the warning-class dictionary still holds
the count for "W" (the method clears `_singleMessageCounts`, the OTHER
class), so the next single-print warning with the same label is suppressed
instead of being emitted again. -/
theorem clearSingleWarnings_leaves_warning_counts :
    (standardLogMsg (mkLog 0 1 0) "warning" "W" true none).map (fun r => r.1)
      = some ["[warn] W"]
  ∧ (standardLogMsg (mkLog 0 1 0) "warning" "W" true none).map (fun r =>
      (clearSingleWarnings r.2).singleWarningMessageCounts) = some [("W", 1)]
  ∧ (standardLogMsg (mkLog 0 1 0) "warning" "W" true none).map (fun r =>
      (clearSingleWarnings r.2).singleMessageCounts) = some []
  ∧ ((standardLogMsg (mkLog 0 1 0) "warning" "W" true none).bind (fun r =>
      standardLogMsg (clearSingleWarnings r.2) "warning" "W" true none)).map
        (fun r => r.1) = some [] := by
  decide

/-- C3: evaluation showing that an `error`-severity message is NOT in the
warning-like class. `_msgHasAlreadyBeenEmitted` tests the severity name
against "critical", a name that does not exist in the severity table, so a
single-print error counts into `_singleMessageCounts` (the OTHER class) and
not into the warning-class counter, and a following single-print `info`
message with the same label is suppressed by it — contrary to the claim
that error shares the warning class and the two classes keep error and info
from interfering. -/
theorem error_severity_counts_in_other_class :
    (standardLogMsg (mkLog 0 1 0) "error" "L" true none).map (fun r => r.1)
      = some ["[err ] L"]
  ∧ (standardLogMsg (mkLog 0 1 0) "error" "L" true none).map (fun r =>
      r.2.singleMessageCounts) = some [("L", 1)]
  ∧ (standardLogMsg (mkLog 0 1 0) "error" "L" true none).map (fun r =>
      r.2.singleWarningMessageCounts) = some []
  ∧ ((standardLogMsg (mkLog 0 1 0) "error" "L" true none).bind (fun r =>
      standardLogMsg r.2 "info" "L" true none)).map (fun r => r.1) = some []
  := by
  decide

/-- C4: evaluation of the three path constructions for run name "case" and
rank 1. The path a worker passes to its stdout logging configuration, the
path it opens for stderr, and the paths the coordinator reads and deletes
in `concatenateLogs` disagree with each other and (except for the worker
stderr path) with the documented layout `logs/case.0001.stdout`, because
`self.name` already contains the `logs/` directory when it is substituted
into the file-name templates and joined again. -/
theorem logfile_paths_disagree :
    workerStdoutPath "case" 1 = "logs/case/logs/case.0001.stdout"
  ∧ coordStdoutPath "case" 1 = "logs/logs/case.0001.stdout"
  ∧ workerStderrPath "case" 1 = "logs/case.0001.stderr"
  ∧ coordStderrPath "case" 1 = "logs/logs/case.0001.stderr"
  ∧ workerStdoutPath "case" 1 ≠ coordStdoutPath "case" 1
  ∧ workerStderrPath "case" 1 ≠ coordStderrPath "case" 1
  ∧ workerStdoutPath "case" 1 ≠ "logs/case.0001.stdout"
  ∧ coordStdoutPath "case" 1 ≠ "logs/case.0001.stdout"
  ∧ coordStderrPath "case" 1 ≠ "logs/case.0001.stderr"
  ∧ (startLogRun (mkLog 1 3 0) "case" 7).2
      = [workerStdoutPath "case" 1, workerStderrPath "case" 1] := by
  decide

/-- C5: a call to `standardLogMsg` whose severity rank is strictly below the
threshold returns without emitting and without touching either dedup
dictionary (the whole state is unchanged); a call at or above the threshold
with `single = true` increments the counter of its `(label, class)` key —
whether or not the message is then suppressed — and leaves the dictionary
of the other class unchanged. -/
theorem standardLogMsg_threshold_and_bookkeeping (st : LogState)
    (msgType msg : String) (single : Bool) (lab : Option String)
    (v : Int) (pfx : String) (hlv : logLevels.lookup msgType = some (v, pfx)) :
    (v < st.verbosity → standardLogMsg st msgType msg single lab = some ([], st))
  ∧ (st.verbosity ≤ v → single = true →
      ((standardLogMsg st msgType msg single lab).map (fun r =>
          countOf (classCountsOf r.2 msgType) (lab.getD msg))
        = some (countOf (classCountsOf st msgType) (lab.getD msg) + 1))
      ∧ ((standardLogMsg st msgType msg single lab).map (fun r =>
          otherClassCountsOf r.2 msgType)
        = some (otherClassCountsOf st msgType))) := by
  constructor
  · intro hv
    simp [standardLogMsg, hlv, hv]
  · intro hv hs
    subst hs
    have hnlt : ¬ v < st.verbosity := by omega
    by_cases hc : msgType = "warning" ∨ msgType = "critical" <;>
      [skip; skip] <;>
      · simp only [standardLogMsg, hlv, hnlt, if_false, if_true,
          msgHasAlreadyBeenEmitted, hc]
        constructor <;>
          · split <;>
              simp [classCountsOf, otherClassCountsOf, hc, countOf_bumpCount_self]

/-- C5 witness: a below-threshold single `debug` call on a fresh logger is
fully dropped, and an at-threshold single `warning` call books its label in
the warning-class dictionary. -/
theorem standardLogMsg_threshold_and_bookkeeping_witness :
    standardLogMsg (mkLog 0 1 0) "debug" "m" true none = some ([], mkLog 0 1 0)
  ∧ (standardLogMsg (mkLog 0 1 0) "warning" "m" true none).map (fun r =>
      countOf (classCountsOf r.2 "warning") "m")
      = some (countOf (classCountsOf (mkLog 0 1 0) "warning") "m" + 1) :=
  ⟨(standardLogMsg_threshold_and_bookkeeping (mkLog 0 1 0) "debug" "m" true none
      0 "[dbug] " (by decide)).1 (by decide),
   ((standardLogMsg_threshold_and_bookkeeping (mkLog 0 1 0) "warning" "m" true none
      30 "[warn] " (by decide)).2 (by decide) rfl).1⟩

/-- C6: single-emit idempotence. On a fresh logger, two single-print
warnings with the same label yield exactly one emitted line, and with two
distinct labels exactly two; in general the suppression check returns false
on the first call for a `(label, class)` key (count still zero) and true on
every later call for the same key (count at least one). -/
theorem single_emit_idempotence (m1 m2 l1 l2 : String) (hne : l1 ≠ l2)
    (st : LogState) (lab t : String) :
    ((standardLogMsg (mkLog 0 1 0) "warning" m1 true (some l1)).bind (fun r =>
        (standardLogMsg r.2 "warning" m2 true (some l1)).map (fun r2 =>
          (r.1 ++ r2.1).length))) = some 1
  ∧ ((standardLogMsg (mkLog 0 1 0) "warning" m1 true (some l1)).bind (fun r =>
        (standardLogMsg r.2 "warning" m2 true (some l2)).map (fun r2 =>
          (r.1 ++ r2.1).length))) = some 2
  ∧ (countOf (classCountsOf st t) lab = 0 →
      (msgHasAlreadyBeenEmitted st lab t).1 = false)
  ∧ (1 ≤ countOf (classCountsOf st t) lab →
      (msgHasAlreadyBeenEmitted st lab t).1 = true) := by
  have h0 : countOf (mkLog 0 1 0).singleWarningMessageCounts l1 = 0 := rfl
  have e1 := standardLogMsg_warning_single_emit (mkLog 0 1 0) m1 l1 (by decide) h0
  refine ⟨?_, ?_, msgHasAlreadyBeenEmitted_false st lab t,
    msgHasAlreadyBeenEmitted_true st lab t⟩
  · rw [e1]
    simp only [Option.some_bind]
    rw [standardLogMsg_warning_single_suppress _ m2 l1 (show (20 : Int) ≤ 30 by norm_num)
        (by simp only [countOf_bumpCount_self, h0]; omega)]
    simp
  · rw [e1]
    have h2 : countOf (bumpCount (mkLog 0 1 0).singleWarningMessageCounts l1) l2
        = 0 := by
      rw [countOf_bumpCount_ne _ _ _ (Ne.symm hne)]
      rfl
    simp only [Option.some_bind]
    rw [standardLogMsg_warning_single_emit _ m2 l2 (show (20 : Int) ≤ 30 by norm_num) h2]
    simp

/-- C6 witness: concrete labels "X" and "Y" on a fresh logger, and a state
with count zero and a state with count one for the general suppression
facts. -/
theorem single_emit_idempotence_witness :
    ((standardLogMsg (mkLog 0 1 0) "warning" "X" true (some "X")).bind (fun r =>
        (standardLogMsg r.2 "warning" "X" true (some "X")).map (fun r2 =>
          (r.1 ++ r2.1).length))) = some 1
  ∧ ((standardLogMsg (mkLog 0 1 0) "warning" "X" true (some "X")).bind (fun r =>
        (standardLogMsg r.2 "warning" "Y" true (some "Y")).map (fun r2 =>
          (r.1 ++ r2.1).length))) = some 2
  ∧ (msgHasAlreadyBeenEmitted (mkLog 0 1 0) "X" "warning").1 = false
  ∧ (msgHasAlreadyBeenEmitted
      { mkLog 0 1 0 with singleWarningMessageCounts := [("X", 1)] }
      "X" "warning").1 = true := by
  obtain ⟨a, b, c, d⟩ :=
    single_emit_idempotence "X" "X" "X" "Y" (by decide)
      { mkLog 0 1 0 with singleWarningMessageCounts := [("X", 1)] } "X" "warning"
  exact ⟨a, b,
    (single_emit_idempotence "X" "X" "X" "Y" (by decide) (mkLog 0 1 0)
        "X" "warning").2.2.1 (by decide),
    d (by decide)⟩

/-- Lookup in an association list succeeds exactly on the keys. -/
theorem lookup_isSome_iff_mem_keys {α : Type} (l : List (String × α)) (k : String) :
    (l.lookup k).isSome = true ↔ k ∈ l.map (fun p => p.1) := by
  induction l with
  | nil => simp [List.lookup]
  | cons hd tl ih =>
    by_cases h : k = hd.1
    · simp [List.lookup, h]
    · simp only [List.lookup, beq_eq_false_iff_ne.mpr h, List.map_cons,
        List.mem_cons]
      rw [ih]
      simp [h]

/-- The rank-check loop only ever returns its input rank. -/
theorem checkLogVerbsityRankAux_ok (levels : List (String × Int × String))
    (n r : Int) (h : checkLogVerbsityRankAux levels n = .ok r) : r = n := by
  induction levels with
  | nil => simp [checkLogVerbsityRankAux] at h
  | cons hd tl ih =>
    obtain ⟨nm, er, lb⟩ := hd
    by_cases he : n = er
    · simp [checkLogVerbsityRankAux, he] at h
      omega
    · exact ih (by simpa [checkLogVerbsityRankAux, he] using h)

/-- The integer verbosity check succeeds exactly on the eight defined ranks. -/
theorem checkLogVerbsityRank_ok_iff (n : Int) :
    (∃ r, checkLogVerbsityRank n = .ok r) ↔
      (n = 0 ∨ n = 10 ∨ n = 20 ∨ n = 25 ∨ n = 27 ∨ n = 30 ∨ n = 50 ∨ n = 100) := by
  simp only [checkLogVerbsityRank, logLevels, checkLogVerbsityRankAux]
  split_ifs <;> simp_all

/-- C7: `setVerbosity` succeeds exactly on the eight severity names
(case-sensitive) or on an integer equal to one of the fixed ranks
0, 10, 20, 25, 27, 30, 50, 100; every other input raises (second component
`some`, the invalid-verbosity error), and on success the stored threshold
becomes the resolved rank. -/
theorem setVerbosity_domain (st : LogState) :
    (∀ name : String,
      ((setVerbosity st (Sum.inl name)).2 = none ↔ name ∈ getLogVerbosityLevels))
  ∧ (∀ n : Int,
      ((setVerbosity st (Sum.inr n)).2 = none ↔
        (n = 0 ∨ n = 10 ∨ n = 20 ∨ n = 25 ∨ n = 27 ∨ n = 30 ∨ n = 50 ∨ n = 100)))
  ∧ (∀ n : Int, (setVerbosity st (Sum.inr n)).2 = none →
      getVerbosity (setVerbosity st (Sum.inr n)).1 = n)
  ∧ (∀ (name : String) (v : Int) (pfx : String),
      logLevels.lookup name = some (v, pfx) →
      getVerbosity (setVerbosity st (Sum.inl name)).1 = v) := by
  refine ⟨?_, ?_, ?_, ?_⟩
  · intro name
    simp only [getLogVerbosityLevels]
    rw [← lookup_isSome_iff_mem_keys logLevels name]
    cases h : logLevels.lookup name <;>
      simp [setVerbosity, getLogVerbosityRank, h]
  · intro n
    rw [← checkLogVerbsityRank_ok_iff n]
    cases h : checkLogVerbsityRank n <;> simp [setVerbosity, h]
  · intro n hok
    cases h : checkLogVerbsityRank n with
    | error e => simp [setVerbosity, h] at hok
    | ok r =>
      have := checkLogVerbsityRankAux_ok logLevels n r h
      subst this
      simp [setVerbosity, h, getVerbosity]
  · intro name v pfx h
    simp [setVerbosity, getLogVerbosityRank, h, getVerbosity]

/-- C7 witness: on a fresh logger, the name "debug" and the rank 30 are
accepted (and install thresholds 0 and 30), while the name "taco" and the
rank 5000 are rejected. -/
theorem setVerbosity_domain_witness :
    (setVerbosity (mkLog 0 1 0) (Sum.inl "debug")).2 = none
  ∧ (setVerbosity (mkLog 0 1 0) (Sum.inr 30)).2 = none
  ∧ getVerbosity (setVerbosity (mkLog 0 1 0) (Sum.inr 30)).1 = 30
  ∧ getVerbosity (setVerbosity (mkLog 0 1 0) (Sum.inl "debug")).1 = 0
  ∧ ¬ (setVerbosity (mkLog 0 1 0) (Sum.inl "taco")).2 = none
  ∧ ¬ (setVerbosity (mkLog 0 1 0) (Sum.inr 5000)).2 = none := by
  obtain ⟨hs, hn, hv, hl⟩ := setVerbosity_domain (mkLog 0 1 0)
  refine ⟨(hs "debug").mpr (by decide), (hn 30).mpr (by tauto),
    hv 30 ((hn 30).mpr (by tauto)), hl "debug" 0 "[dbug] " (by decide), ?_, ?_⟩
  · intro h
    have := (hs "taco").mp h
    simp [getLogVerbosityLevels, logLevels] at this
  · intro h
    have := (hn 5000).mp h
    omega

/-- C8 counterexample: the report lines travel through the module-level
`info`, so at a verbosity threshold of 30 (a legal operator setting) a
deduplicator that has recorded label "A" produces no banner and no entry
line at all — the claim as stated, with no verbosity qualifier, fails. -/
theorem warningReport_silent_above_info_cex :
    (warningReportRun { mkLog 0 1 0 with
        verbosity := 30, singleWarningMessageCounts := [("A", 2)] }).1 = []
  ∧ ({ mkLog 0 1 0 with
        verbosity := 30,
        singleWarningMessageCounts := [("A", 2)] } : LogState).singleWarningMessageCounts
      ≠ [] := by
  constructor
  · rw [warningReportRun_silent _ (by decide)]
  · decide

/-- C8 (amended with the verbosity condition forced by the counterexample):
whenever the threshold admits `info` messages, `warningReport` emits the
fixed banner and column header, then one formatted line per warning-class
entry with the entries in ascending count order — a stable sort, ties kept
in original insertion order — then the footer; the state is unchanged. In
particular with "A" recorded twice and "B" five times, the line for "A"
(count 2) precedes the line for "B" (count 5). -/
theorem warningReport_sorted_output (st : LogState) (h : st.verbosity ≤ 20) :
    (warningReportRun st).1 =
      ("[info] " ++ cleanMsg "----- Final Warning Count --------")
        :: ("[info] " ++ cleanMsg warningHeaderLine)
        :: ((sortedWarnings st.singleWarningMessageCounts).map
              (fun e => "[info] " ++ cleanMsg (fmtWarningLine e))
            ++ ["[info] " ++ cleanMsg "------------------------------------"])
  ∧ (warningReportRun st).2 = st
  ∧ List.Pairwise (fun a b : String × Nat => a.2 ≤ b.2)
      (sortedWarnings st.singleWarningMessageCounts)
  ∧ (sortedWarnings st.singleWarningMessageCounts).Perm
      st.singleWarningMessageCounts
  ∧ (∀ c : Nat, (sortedWarnings st.singleWarningMessageCounts).filter
        (fun e => e.2 == c)
      = st.singleWarningMessageCounts.filter (fun e => e.2 == c))
  ∧ (warningReportRun { mkLog 0 1 0 with
        singleWarningMessageCounts := [("A", 2), ("B", 5)] }).1
      = ["[info] ----- Final Warning Count --------",
         "[info]     COUNT                LABEL",
         "[info]            2   A",
         "[info]            5   B",
         "[info] ------------------------------------"] := by
  refine ⟨?_, ?_, sortedWarnings_pairwise _, sortedWarnings_perm _,
    sortedWarnings_filter _, ?_⟩
  · rw [warningReportRun_eq st h]
  · rw [warningReportRun_eq st h]
  · rw [warningReportRun_eq _ (by decide)]
    have hs : sortedWarnings [("A", 2), ("B", 5)] = [("A", 2), ("B", 5)] :=
      List.mergeSort_of_sorted (by decide)
    simp only
    rw [hs]
    decide

/-- C8 witness: the amended statement applied to a logger at the default
threshold 20 holding the entries of the scenario. -/
theorem warningReport_sorted_output_witness :
    (warningReportRun { mkLog 0 1 0 with
        singleWarningMessageCounts := [("A", 2), ("B", 5)] }).1
      = ["[info] ----- Final Warning Count --------",
         "[info]     COUNT                LABEL",
         "[info]            2   A",
         "[info]            5   B",
         "[info] ------------------------------------"] :=
  (warningReport_sorted_output { mkLog 0 1 0 with
      singleWarningMessageCounts := [("A", 2), ("B", 5)] } (by decide)).2.2.2.2.2

/-- C9: restoring the error stream puts back the remembered initial target
exactly when the process-global target is still the one this object
installed, leaves the global target untouched otherwise, never changes the
other fields, and is idempotent: a second restore changes nothing more. -/
theorem restoreErrStream_idempotent_no_clobber (st : LogState) :
    restoreErrStream st =
      (if st.sysStderr = st.errStream then { st with sysStderr := st.initialErr }
       else st)
  ∧ (restoreErrStream st).errStream = st.errStream
  ∧ (restoreErrStream st).initialErr = st.initialErr
  ∧ restoreErrStream (restoreErrStream st) = restoreErrStream st := by
  refine ⟨rfl, ?_, ?_, ?_⟩
  · unfold restoreErrStream
    split <;> rfl
  · unfold restoreErrStream
    split <;> rfl
  · unfold restoreErrStream
    by_cases h1 : st.sysStderr = st.errStream
    · simp only [h1, if_pos rfl]
      by_cases h2 : st.initialErr = st.errStream <;> simp [h2]
    · simp [h1]

/-- C10: a failed `setVerbosity` call (unknown name or integer matching no
defined rank) raises after evaluating its right-hand side and before the
assignment, so the stored verbosity — and the whole state — is exactly what
it was before the call. -/
theorem setVerbosity_atomic_on_failure (st : LogState) (i : String ⊕ Int)
    (h : (setVerbosity st i).2 ≠ none) :
    (setVerbosity st i).1 = st
  ∧ getVerbosity (setVerbosity st i).1 = getVerbosity st := by
  unfold setVerbosity at *
  rcases i with s | n
  · cases hr : getLogVerbosityRank s <;> simp_all
  · cases hr : checkLogVerbsityRank n <;> simp_all

/-- C10 witness: the invalid rank 5000 and the invalid name "taco" leave a
fresh logger unchanged with its verbosity still 20. -/
theorem setVerbosity_atomic_on_failure_witness :
    (setVerbosity (mkLog 0 1 0) (Sum.inr 5000)).1 = mkLog 0 1 0
  ∧ getVerbosity (setVerbosity (mkLog 0 1 0) (Sum.inr 5000)).1
      = getVerbosity (mkLog 0 1 0)
  ∧ (setVerbosity (mkLog 0 1 0) (Sum.inl "taco")).1 = mkLog 0 1 0 :=
  ⟨(setVerbosity_atomic_on_failure (mkLog 0 1 0) (Sum.inr 5000) (by decide)).1,
   (setVerbosity_atomic_on_failure (mkLog 0 1 0) (Sum.inr 5000) (by decide)).2,
   (setVerbosity_atomic_on_failure (mkLog 0 1 0) (Sum.inl "taco") (by decide)).1⟩

end RunLog
